import Mathlib

/-!
# PocketClaw dashboard view-model (`src/pocketclaw/frontend/js/app.js`)

A shallow embedding of the Alpine.js component returned by `app()`.

* JavaScript strings are sequences of UTF-16 code units (`JSString`); `length`,
  `substring`, `includes`, `trim` and `+` are the list operations on code units.
* The component object is the record `State`.  Effects on collaborators that
  the file only calls (`Tools.showToast`, the `socket` methods, `setInterval`)
  are recorded as traces inside the state, in call order.
* `Tools.parseStatus`, `Tools.formatTime` and `String.prototype.toUpperCase`
  are not defined in this file of the repository; they are parameters (`Env`).
  `Tools.formatTime()` reads a clock, so it is indexed by the number of reads
  made so far (`State.clock`), which lets it return anything at each call.
* The `$nextTick` scroll callbacks only touch DOM scroll positions and are
  left out.
* `apiKeys` is an object literal: a read `apiKeys[name]` looks at its own
  properties and then at `Object.prototype` (`readKey`, `writeKey`).
* Where the order of effects inside one method matters, the method body is
  also given as its list of statements (`sendMessageBody`, `execTrace`).
-/

set_option maxRecDepth 100000

namespace PocketClaw

/-! ## JavaScript strings -/

/-- A JavaScript string: its UTF-16 code units. -/
abbrev JSString := List Nat

/-- UTF-16 encoding of one Unicode scalar value. -/
def utf16Char (c : Char) : List Nat :=
  if c.toNat < 65536 then [c.toNat]
  else [55296 + (c.toNat - 65536) / 1024, 56320 + (c.toNat - 65536) % 1024]

/-- The JavaScript string denoted by a source literal. -/
def js (s : String) : JSString :=
  s.toList.flatMap utf16Char

/-- JavaScript `s.includes(sub)`: `sub` occurs in `s` as a contiguous run of code units. -/
def includes : JSString → JSString → Bool
  | [], sub => sub.isEmpty
  | c :: s, sub => sub.isPrefixOf (c :: s) || includes s sub

/-- JavaScript `s.substring(0, n)`. -/
def substring0 (s : JSString) (n : Nat) : JSString :=
  s.take n

/-- ECMAScript WhiteSpace and LineTerminator code units, the ones `trim` strips. -/
def isWhiteSpace (c : Nat) : Bool :=
  c == 9 || c == 10 || c == 11 || c == 12 || c == 13 || c == 32 || c == 160 ||
  c == 5760 || (8192 ≤ c && c ≤ 8202) || c == 8232 || c == 8233 || c == 8239 ||
  c == 8287 || c == 12288 || c == 65279

/-- JavaScript `s.trimStart()`. -/
def trimStart (s : JSString) : JSString :=
  s.dropWhile isWhiteSpace

/-- JavaScript `s.trim()`. -/
def trim (s : JSString) : JSString :=
  (trimStart (trimStart s).reverse).reverse

/-- JavaScript `x || d` for `x` a string or `undefined`: the empty string and
`undefined` are falsy. -/
def orDefault (x : Option JSString) (d : JSString) : JSString :=
  match x with
  | none => d
  | some [] => d
  | some (c :: s) => c :: s

/-! ## Data model -/

/-- The `role` argument of `addMessage`. -/
inductive Role where
  | user
  | assistant
  deriving DecidableEq, Repr

/-- The `level` argument of `log` and the `type` argument of `showToast`. -/
inductive Level where
  | info
  | success
  | error
  deriving DecidableEq, Repr

/-- An element of `messages`. -/
structure Message where
  role : Role
  content : JSString
  time : JSString
  deriving DecidableEq, Repr

/-- An element of `logs`. -/
structure LogEntry where
  time : JSString
  message : JSString
  level : Level
  deriving DecidableEq, Repr

/-- The `status` object. -/
structure Status where
  cpu : JSString
  ram : JSString
  disk : JSString
  battery : JSString
  deriving DecidableEq, Repr

/-- The `settings` object. -/
structure Settings where
  agentBackend : JSString
  llmProvider : JSString
  deriving DecidableEq, Repr

/-- One call of `Tools.showToast(message, type, …)`. -/
structure Toast where
  message : JSString
  type : Level
  deriving DecidableEq, Repr

/-- The closures that `setupSocketHandlers` registers. -/
inductive Handler where
  | onConnected
  | onDisconnected
  | handleMessage
  | handleNotification
  | handleStatus
  | handleScreenshot
  | handleCode
  | handleError
  | startStreaming
  | endStreaming
  deriving DecidableEq, Repr

/-- What the property read `apiKeys[provider]` can give: `undefined`, a string stored in
`apiKeys` itself, or the member of `Object.prototype` of that name (a function, or for
`__proto__` the prototype object). -/
inductive JSValue where
  | undefined
  | str (s : JSString)
  | inherited (name : JSString)
  deriving DecidableEq, Repr

/-- An outbound call on the `socket` collaborator. -/
inductive SocketCall where
  | connect
  | runTool (tool : JSString)
  | chat (text : JSString)
  | toggleAgent (active : Bool)
  | saveSettings (agentBackend llmProvider : JSString)
  | saveApiKey (provider : JSString) (key : JSValue)
  deriving DecidableEq, Repr

/-- The `socket` collaborator as this file sees it. -/
structure Socket where
  isConnected : Bool
  handlers : List (JSString × Handler)
  calls : List SocketCall
  deriving DecidableEq, Repr

/-- The external functions the component calls. -/
structure Env where
  parseStatus : JSString → Status
  formatTime : Nat → JSString
  toUpperCase : JSString → JSString

/-- The component object, followed by the collaborators it acts on. -/
structure State where
  view : JSString
  showSettings : Bool
  showScreenshot : Bool
  screenshotSrc : JSString
  agentActive : Bool
  isStreaming : Bool
  streamingContent : JSString
  streamingMessageId : Option Nat
  hasShownWelcome : Bool
  messages : List Message
  logs : List LogEntry
  inputText : JSString
  status : Status
  settings : Settings
  apiKeys : List (JSString × JSString)
  clock : Nat
  toasts : List Toast
  socket : Socket
  timers : List Nat
  deriving DecidableEq, Repr

/-- Payload of a `message`, `notification`, `status`, `code` or `error` event:
`content` may be missing. -/
structure ContentData where
  content : Option JSString
  deriving DecidableEq, Repr

/-- Payload of a `screenshot` event. -/
structure ImageData where
  image : Option JSString
  deriving DecidableEq, Repr

/-- The object literal returned by `app()`, with an untouched socket. -/
def initial (connected : Bool) : State :=
  { view := js "chat"
    showSettings := false
    showScreenshot := false
    screenshotSrc := []
    agentActive := false
    isStreaming := false
    streamingContent := []
    streamingMessageId := none
    hasShownWelcome := false
    messages := []
    logs := []
    inputText := []
    status := { cpu := js "—", ram := js "—", disk := js "—", battery := js "—" }
    settings := { agentBackend := js "open_interpreter", llmProvider := js "auto" }
    apiKeys := [(js "anthropic", []), (js "openai", [])]
    clock := 0
    toasts := []
    socket := { isConnected := connected, handlers := [], calls := [] }
    timers := [] }

/-! ## Operations -/

/-- Modelled from the spec: `socket.clearHandlers()` lives in the channel module,
which is not among the sources; section 4.1 says it clears all prior bindings. -/
def clearHandlers (k : Socket) : Socket :=
  { k with handlers := [] }

/-- Modelled from the spec: `socket.on(event, handler)` lives in the channel module,
which is not among the sources; section 4.1 says it binds a handler to a named event. -/
def socketOn (k : Socket) (event : JSString) (h : Handler) : Socket :=
  { k with handlers := k.handlers ++ [(event, h)] }

/-- An outbound call on the socket, recorded in call order. -/
def socketCall (s : State) (c : SocketCall) : State :=
  { s with socket := { s.socket with calls := s.socket.calls ++ [c] } }

/-- Method `showToast(message, type)`: delegates to `Tools.showToast`. -/
def showToast (s : State) (message : JSString) (type : Level) : State :=
  { s with toasts := s.toasts ++ [{ message := message, type := type }] }

/-- Method `addMessage(role, content)`. -/
def addMessage (T : Env) (s : State) (role : Role) (content : JSString) : State :=
  { s with
    messages := s.messages ++ [{ role := role, content := content, time := T.formatTime s.clock }]
    clock := s.clock + 1 }

/-- The array part of `log`: `push`, then `shift` when the length exceeds 100. -/
def pushLog (logs : List LogEntry) (e : LogEntry) : List LogEntry :=
  let pushed := logs ++ [e]
  if pushed.length > 100 then pushed.tail else pushed

/-- Method `log(message, level)`. -/
def log (T : Env) (s : State) (message : JSString) (level : Level) : State :=
  { s with
    logs := pushLog s.logs { time := T.formatTime s.clock, message := message, level := level }
    clock := s.clock + 1 }

/-- Method `startStreaming()`. -/
def startStreaming (s : State) : State :=
  { s with isStreaming := true, streamingContent := [] }

/-- Method `endStreaming()`. -/
def endStreaming (T : Env) (s : State) : State :=
  let s1 :=
    if s.isStreaming && !s.streamingContent.isEmpty then
      addMessage T s Role.assistant s.streamingContent
    else s
  { s1 with isStreaming := false, streamingContent := [] }

/-- Method `handleNotification(data)`. -/
def handleNotification (T : Env) (s : State) (data : ContentData) : State :=
  let content := orDefault data.content []
  if includes content (js "Connected to PocketClaw") && s.hasShownWelcome then s
  else
    let s1 :=
      if includes content (js "Connected to PocketClaw") then
        { s with hasShownWelcome := true }
      else s
    let s2 := showToast s1 content Level.info
    log T s2 content Level.info

/-- The test `handleMessage` uses to recognise a status update. -/
def isStatusContent (content : JSString) : Bool :=
  includes content (js "System Status") || includes content (js "🧠 CPU:")

/-- The text `handleMessage` logs: `content.substring(0, 80) + (content.length > 80 ? '...' : '')`. -/
def logPreview (content : JSString) : JSString :=
  substring0 content 80 ++ (if content.length > 80 then js "..." else [])

/-- Method `handleMessage(data)`. -/
def handleMessage (T : Env) (s : State) (data : ContentData) : State :=
  let content := orDefault data.content []
  if isStatusContent content then
    { s with status := T.parseStatus content }
  else
    let s1 :=
      if s.isStreaming then
        { s with streamingContent := s.streamingContent ++ content }
      else addMessage T s Role.assistant content
    log T s1 (logPreview content) Level.info

/-- Method `handleStatus(data)`. -/
def handleStatus (T : Env) (s : State) (data : ContentData) : State :=
  match data.content with
  | none => s
  | some [] => s
  | some (c :: cs) => { s with status := T.parseStatus (c :: cs) }

/-- Method `handleScreenshot(data)`. -/
def handleScreenshot (s : State) (data : ImageData) : State :=
  match data.image with
  | none => s
  | some [] => s
  | some (c :: cs) =>
    { s with screenshotSrc := js "data:image/png;base64," ++ (c :: cs), showScreenshot := true }

/-- Method `handleCode(data)`. -/
def handleCode (T : Env) (s : State) (data : ContentData) : State :=
  let content := orDefault data.content []
  if s.isStreaming then
    { s with streamingContent := s.streamingContent ++ (js "\n```\n" ++ content ++ js "\n```\n") }
  else addMessage T s Role.assistant (js "```\n" ++ content ++ js "\n```")

/-- Method `handleError(data)`. -/
def handleError (T : Env) (s : State) (data : ContentData) : State :=
  let content := orDefault data.content (js "Unknown error")
  let s1 := addMessage T s Role.assistant (js "❌ " ++ content)
  let s2 := log T s1 content Level.error
  let s3 := showToast s2 content Level.error
  endStreaming T s3

/-- Method `sendMessage()`. -/
def sendMessage (T : Env) (s : State) : State :=
  let text := trim s.inputText
  if text.isEmpty then s
  else
    let s1 := addMessage T s Role.user text
    let s2 := { s1 with inputText := [] }
    let s3 := startStreaming s2
    let s4 := socketCall s3 (SocketCall.chat text)
    log T s4 (js "You: " ++ text) Level.info

/-- Method `runTool(tool)`. -/
def runTool (T : Env) (s : State) (tool : JSString) : State :=
  let s1 := log T s (js "Running tool: " ++ tool) Level.info
  socketCall s1 (SocketCall.runTool tool)

/-- Method `toggleAgent()`. -/
def toggleAgent (T : Env) (s : State) : State :=
  let s1 := socketCall s (SocketCall.toggleAgent s.agentActive)
  log T s1 (js "Switched Agent Mode: " ++ (if s.agentActive then js "ON" else js "OFF")) Level.info

/-- Method `saveSettings()`. -/
def saveSettings (T : Env) (s : State) : State :=
  let s1 := socketCall s (SocketCall.saveSettings s.settings.agentBackend s.settings.llmProvider)
  let s2 := log T s1 (js "Settings updated") Level.info
  showToast s2 (js "Settings saved") Level.success

/-- Lookup among the own properties of `apiKeys`; `none` when there is none of that name. -/
def getKey : List (JSString × JSString) → JSString → Option JSString
  | [], _ => none
  | (p, k) :: rest, provider => if p = provider then some k else getKey rest provider

/-- Update of an own property of `apiKeys`, created last when there is none of that name. -/
def setKey : List (JSString × JSString) → JSString → JSString → List (JSString × JSString)
  | [], provider, key => [(provider, key)]
  | (p, k) :: rest, provider, key =>
    if p = provider then (p, key) :: rest else (p, k) :: setKey rest provider key

/-- The property names of `Object.prototype` (ECMAScript, Annex B included), which every
object literal inherits. -/
def objectPrototypeNames : List JSString :=
  [js "constructor", js "__defineGetter__", js "__defineSetter__", js "hasOwnProperty",
   js "__lookupGetter__", js "__lookupSetter__", js "isPrototypeOf",
   js "propertyIsEnumerable", js "toString", js "valueOf", js "__proto__",
   js "toLocaleString"]

/-- Property read `apiKeys[provider]`: an own property first, then the prototype chain. -/
def readKey (keys : List (JSString × JSString)) (provider : JSString) : JSValue :=
  match getKey keys provider with
  | some k => JSValue.str k
  | none =>
    if provider ∈ objectPrototypeNames then JSValue.inherited provider else JSValue.undefined

/-- Property write `apiKeys[provider] = key` with `key` a string.  Without an own property
of that name, `__proto__` reaches the inherited setter, which ignores a string; any other
name gets an own property. -/
def writeKey (keys : List (JSString × JSString)) (provider key : JSString) :
    List (JSString × JSString) :=
  if provider = js "__proto__" ∧ getKey keys provider = none then keys
  else setKey keys provider key

/-- JavaScript truthiness of a value read from `apiKeys`. -/
def truthy : JSValue → Bool
  | JSValue.undefined => false
  | JSValue.str k => !k.isEmpty
  | JSValue.inherited _ => true

/-- Method `saveApiKey(provider)`. -/
def saveApiKey (T : Env) (s : State) (provider : JSString) : State :=
  let key := readKey s.apiKeys provider
  if !truthy key then
    showToast s (js "Please enter an API key") Level.error
  else
    let s1 := socketCall s (SocketCall.saveApiKey provider key)
    let s2 := { s1 with apiKeys := writeKey s1.apiKeys provider [] }
    let s3 := log T s2 (js "Saved " ++ provider ++ js " API key") Level.success
    showToast s3 (T.toUpperCase (provider.take 1) ++ provider.drop 1 ++ js " API key saved!")
      Level.success

/-- The closure `onConnected` of `setupSocketHandlers`. -/
def onConnected (T : Env) (s : State) : State :=
  let s1 := log T s (js "Connected to PocketClaw Engine") Level.success
  socketCall s1 (SocketCall.runTool (js "status"))

/-- The closure registered for `disconnected`. -/
def onDisconnected (T : Env) (s : State) : State :=
  log T s (js "Disconnected from server") Level.error

/-- Registration `socket.on(event, handler)` applied to the state. -/
def register (s : State) (event : String) (h : Handler) : State :=
  { s with socket := socketOn s.socket (js event) h }

/-- Method `setupSocketHandlers()`. -/
def setupSocketHandlers (T : Env) (s : State) : State :=
  let s1 := { s with socket := clearHandlers s.socket }
  let s2 := register s1 "connected" Handler.onConnected
  let s3 := if s2.socket.isConnected then onConnected T s2 else s2
  let s4 := register s3 "disconnected" Handler.onDisconnected
  let s5 := register s4 "message" Handler.handleMessage
  let s6 := register s5 "notification" Handler.handleNotification
  let s7 := register s6 "status" Handler.handleStatus
  let s8 := register s7 "screenshot" Handler.handleScreenshot
  let s9 := register s8 "code" Handler.handleCode
  let s10 := register s9 "error" Handler.handleError
  let s11 := register s10 "stream_start" Handler.startStreaming
  register s11 "stream_end" Handler.endStreaming

/-- The callback `startStatusPolling` hands to `setInterval`. -/
def pollTick (s : State) : State :=
  if s.socket.isConnected then socketCall s (SocketCall.runTool (js "status")) else s

/-- Method `startStatusPolling()`: one more interval timer, of period 10000 ms. -/
def startStatusPolling (s : State) : State :=
  { s with timers := s.timers ++ [10000] }

/-- Method `init()`. -/
def init (T : Env) (s : State) : State :=
  let s1 := log T s (js "PocketClaw Dashboard initialized") Level.info
  let s2 := setupSocketHandlers T s1
  let s3 := socketCall s2 SocketCall.connect
  startStatusPolling s3

/-! ## The body of `sendMessage`, statement by statement -/

/-- The statements `sendMessage` executes after its guard. -/
inductive Stmt where
  | addMessage (role : Role) (content : JSString)
  | setInputText (text : JSString)
  | startStreaming
  | socketChat (text : JSString)
  | log (message : JSString) (level : Level)
  deriving DecidableEq, Repr

/-- The effect of one statement. -/
def execStmt (T : Env) (s : State) : Stmt → State
  | Stmt.addMessage role content => addMessage T s role content
  | Stmt.setInputText text => { s with inputText := text }
  | Stmt.startStreaming => startStreaming s
  | Stmt.socketChat text => socketCall s (SocketCall.chat text)
  | Stmt.log message level => log T s message level

/-- The statements of `sendMessage()` in source order (lines 219 to 232): nothing when the
trimmed input is empty. -/
def sendMessageBody (s : State) : List Stmt :=
  let text := trim s.inputText
  if text.isEmpty then []
  else
    [Stmt.addMessage Role.user text,
     Stmt.setInputText [],
     Stmt.startStreaming,
     Stmt.socketChat text,
     Stmt.log (js "You: " ++ text) Level.info]

/-- The execution of a list of statements: each statement with the state it starts from. -/
def execTrace (T : Env) : State → List Stmt → List (State × Stmt)
  | _, [] => []
  | s, c :: cs => (s, c) :: execTrace T (execStmt T s c) cs

/-! ## Runs -/

/-- Consecutive `message` events, in arrival order. -/
def handleMessages (T : Env) (s : State) (es : List ContentData) : State :=
  es.foldl (handleMessage T) s

/-- Consecutive `notification` events, in arrival order. -/
def handleNotifications (T : Env) (s : State) (es : List ContentData) : State :=
  es.foldl (handleNotification T) s

/-- Everything that can happen to the component: an inbound event, a timer tick,
a call from the presentation layer, a write to a field bound to a form control,
or the channel changing its connection flag. -/
inductive Op where
  | init
  | connected
  | disconnected
  | message (data : ContentData)
  | notification (data : ContentData)
  | status (data : ContentData)
  | screenshot (data : ImageData)
  | code (data : ContentData)
  | error (data : ContentData)
  | streamStart
  | streamEnd
  | tick
  | sendMessage
  | runTool (tool : JSString)
  | toggleAgent
  | saveSettings
  | saveApiKey (provider : JSString)
  | log (message : JSString) (level : Level)
  | setInputText (text : JSString)
  | setAgentActive (b : Bool)
  | setSettings (v : Settings)
  | setApiKey (provider key : JSString)
  | setConnected (b : Bool)
  deriving DecidableEq, Repr

/-- The effect of one `Op`. -/
def step (T : Env) (s : State) : Op → State
  | Op.init => init T s
  | Op.connected => onConnected T s
  | Op.disconnected => onDisconnected T s
  | Op.message d => handleMessage T s d
  | Op.notification d => handleNotification T s d
  | Op.status d => handleStatus T s d
  | Op.screenshot d => handleScreenshot s d
  | Op.code d => handleCode T s d
  | Op.error d => handleError T s d
  | Op.streamStart => startStreaming s
  | Op.streamEnd => endStreaming T s
  | Op.tick => pollTick s
  | Op.sendMessage => sendMessage T s
  | Op.runTool t => runTool T s t
  | Op.toggleAgent => toggleAgent T s
  | Op.saveSettings => saveSettings T s
  | Op.saveApiKey p => saveApiKey T s p
  | Op.log m v => log T s m v
  | Op.setInputText t => { s with inputText := t }
  | Op.setAgentActive b => { s with agentActive := b }
  | Op.setSettings v => { s with settings := v }
  | Op.setApiKey p k => { s with apiKeys := writeKey s.apiKeys p k }
  | Op.setConnected b => { s with socket := { s.socket with isConnected := b } }

/-- The state after a sequence of `Op`s. -/
def run (T : Env) (s : State) (ops : List Op) : State :=
  ops.foldl (step T) s

/-- A fixed environment for evaluating the definitions on concrete inputs. -/
def demoEnv : Env :=
  { parseStatus := fun c => { cpu := c, ram := [], disk := [], battery := [] }
    formatTime := fun n => [n]
    toUpperCase := fun c => c }

/-! ## Definitions used in the statements -/

/-- The content a handler reads from a payload: `data.content || ''`. -/
def contentOf (data : ContentData) : JSString :=
  orDefault data.content []

/-- A state in the middle of a stream, holding the partial reply `partial`. -/
def midStream : State :=
  handleMessage demoEnv (startStreaming (initial false)) ⟨some (js "partial")⟩

/-- The test `handleNotification` uses to recognise the welcome notification. -/
def isWelcome (e : ContentData) : Bool :=
  includes (contentOf e) (js "Connected to PocketClaw")

/-- Stated from the spec, section 4.2: the notifications that are surfaced.  Everything up
to and including the first welcome notification, and after it only the other ones. -/
def shownNotifications (es : List ContentData) : List ContentData :=
  es.takeWhile (fun e => !isWelcome e) ++
    match es.dropWhile (fun e => !isWelcome e) with
    | [] => []
    | w :: rest => w :: rest.filter (fun e => !isWelcome e)

/-- The info log entries of consecutive notifications, the first stamped at clock `c`. -/
def stampedLogs (T : Env) : Nat → List ContentData → List LogEntry
  | _, [] => []
  | c, e :: es =>
    { time := T.formatTime c, message := contentOf e, level := Level.info } ::
      stampedLogs T (c + 1) es

/-- The last `n` elements of a list. -/
def keepLast {α : Type} (n : Nat) (l : List α) : List α :=
  l.drop (l.length - n)

/-- The toast `handleNotification` raises for a notification. -/
def infoToast (e : ContentData) : Toast :=
  { message := contentOf e, type := Level.info }

/-- A state whose log buffer is full: one hundred entries, stamped 0 to 99. -/
def fullLogs : State :=
  run demoEnv (initial false) (List.replicate 100 (Op.log (js "old") Level.info))

/-- A state whose chat input holds only blanks, a tab and a line break. -/
def blankInput : State :=
  { initial true with inputText := js "  \t\n " }

/-- The entries `handleMessage` adds for consecutive messages while idle; each message
reads the clock twice (entry, then log), the first at `c`. -/
def immediateEntries (T : Env) : Nat → List ContentData → List Message
  | _, [] => []
  | c, e :: es =>
    { role := Role.assistant, content := contentOf e, time := T.formatTime c } ::
      immediateEntries T (c + 2) es

/-- A state whose chat input is `hello` with blanks around it. -/
def typedInput : State :=
  { initial true with inputText := js "  hello " }

/-- A state in which a key has been typed for `anthropic` and none for `openai`. -/
def keyTyped : State :=
  step demoEnv (initial true) (Op.setApiKey (js "anthropic") (js "sk-1"))

/-- The text `handleError` reports: `data.content || 'Unknown error'`. -/
def errorText (data : ContentData) : JSString :=
  orDefault data.content (js "Unknown error")

/-- Stated from the spec, section 4.1: the fixed set of bindings, one handler for each of
the ten events. -/
def fixedBindings : List (JSString × Handler) :=
  [(js "connected", Handler.onConnected),
   (js "disconnected", Handler.onDisconnected),
   (js "message", Handler.handleMessage),
   (js "notification", Handler.handleNotification),
   (js "status", Handler.handleStatus),
   (js "screenshot", Handler.handleScreenshot),
   (js "code", Handler.handleCode),
   (js "error", Handler.handleError),
   (js "stream_start", Handler.startStreaming),
   (js "stream_end", Handler.endStreaming)]

/-- The state `s` with the handler table of its socket replaced. -/
def withHandlers (s : State) (table : List (JSString × Handler)) : State :=
  { s with socket := { s.socket with handlers := table } }

/-- A connected state whose handler table is left over from an earlier setup. -/
def alreadySetUp : State :=
  setupSocketHandlers demoEnv (initial true)

/-! ## Lemmas shared by the results below -/

/-- The recursive `includes` is the contiguous-sublist relation on code units. -/
theorem includes_iff_infix (sub : JSString) :
    ∀ s : JSString, includes s sub = true ↔ sub <:+: s := by
  intro s
  induction s with
  | nil => simp [includes, List.isEmpty_iff]
  | cons c s ih =>
    simp only [includes, Bool.or_eq_true, ih, List.isPrefixOf_iff_prefix]
    exact List.infix_cons_iff.symm

theorem pushLog_length_le (logs : List LogEntry) (e : LogEntry) (h : logs.length ≤ 100) :
    (pushLog logs e).length ≤ 100 := by
  unfold pushLog
  simp only [List.length_append, List.length_singleton]
  split
  · simp only [List.length_tail, List.length_append, List.length_singleton]; omega
  · simp only [List.length_append, List.length_singleton]; omega

theorem handleMessage_status (T : Env) (s : State) (d : ContentData)
    (h : isStatusContent (contentOf d) = true) :
    handleMessage T s d = { s with status := T.parseStatus (contentOf d) } := by
  unfold contentOf at h
  simp [handleMessage, h, contentOf]

theorem handleMessage_streaming (T : Env) (s : State) (d : ContentData)
    (h : isStatusContent (contentOf d) = false) (hs : s.isStreaming = true) :
    handleMessage T s d =
      log T { s with streamingContent := s.streamingContent ++ contentOf d }
        (logPreview (contentOf d)) Level.info := by
  unfold contentOf at h
  simp [handleMessage, h, hs, contentOf]

theorem handleMessage_idle (T : Env) (s : State) (d : ContentData)
    (h : isStatusContent (contentOf d) = false) (hs : s.isStreaming = false) :
    handleMessage T s d =
      log T (addMessage T s Role.assistant (contentOf d))
        (logPreview (contentOf d)) Level.info := by
  unfold contentOf at h
  simp [handleMessage, h, hs, contentOf]

/-- While streaming, chunks without a status marker only grow the buffer. -/
theorem handleMessages_streaming (T : Env) (es : List ContentData) :
    ∀ s : State, s.isStreaming = true →
      (∀ e ∈ es, isStatusContent (contentOf e) = false) →
      (handleMessages T s es).isStreaming = true ∧
      (handleMessages T s es).streamingContent
        = s.streamingContent ++ (es.map contentOf).flatten ∧
      (handleMessages T s es).messages = s.messages ∧
      (handleMessages T s es).clock = s.clock + es.length := by
  induction es with
  | nil => intro s hs _; simp [handleMessages, hs]
  | cons e es ih =>
    intro s hs hall
    have he : isStatusContent (contentOf e) = false := hall e (List.mem_cons_self _ _)
    have hrest : ∀ x ∈ es, isStatusContent (contentOf x) = false :=
      fun x hx => hall x (List.mem_cons_of_mem _ hx)
    have hstep := handleMessage_streaming T s e he hs
    have key := ih (handleMessage T s e) (by rw [hstep]; simpa [log] using hs) hrest
    have hfold : handleMessages T s (e :: es) = handleMessages T (handleMessage T s e) es := rfl
    rw [hfold]
    obtain ⟨k1, k2, k3, k4⟩ := key
    refine ⟨k1, ?_, ?_, ?_⟩
    · rw [k2, hstep]; simp [log, List.append_assoc]
    · rw [k3, hstep]; simp [log]
    · rw [k4, hstep]; simp [log]; omega

/-! ## Results -/

/-- C1. A stream `start → c1 → … → cn → end` whose chunks carry no status marker
appends exactly one assistant entry holding `c1 ++ … ++ cn` when that text is
non-empty, and nothing when it is empty; earlier entries are untouched. -/
theorem stream_appends_concatenation (T : Env) (s : State) (es : List ContentData)
    (h : ∀ e ∈ es, isStatusContent (contentOf e) = false) :
    (endStreaming T (handleMessages T (startStreaming s) es)).messages =
      s.messages ++
        (if (es.map contentOf).flatten = [] then []
         else [{ role := Role.assistant, content := (es.map contentOf).flatten,
                 time := T.formatTime (s.clock + es.length) }]) := by
  have hk := handleMessages_streaming T es (startStreaming s) rfl h
  have e2 : (startStreaming s).streamingContent = [] := rfl
  have e3 : (startStreaming s).messages = s.messages := rfl
  have e4 : (startStreaming s).clock = s.clock := rfl
  rw [e2, e3, e4, List.nil_append] at hk
  generalize handleMessages T (startStreaming s) es = s1 at hk
  obtain ⟨k1, k2, k3, k4⟩ := hk
  unfold endStreaming
  by_cases hc : (es.map contentOf).flatten = []
  · simp [k1, k2, k3, hc]
  · simp [k1, k2, k3, k4, hc, addMessage]

/-- C1, at a three-chunk stream. -/
theorem stream_appends_concatenation_witness :
    (endStreaming demoEnv (handleMessages demoEnv (startStreaming (initial false))
        [⟨some (js "Hel")⟩, ⟨none⟩, ⟨some (js "lo")⟩])).messages =
      [{ role := Role.assistant, content := js "Hello", time := [3] }] :=
  stream_appends_concatenation demoEnv (initial false)
    [⟨some (js "Hel")⟩, ⟨none⟩, ⟨some (js "lo")⟩] (by decide)

/-- C2 as stated fails: an error during a stream with buffer `partial` leaves two new
entries, the error entry and then the buffered text, which `endStreaming` flushes. -/
theorem handleError_flushes_buffer :
    midStream.isStreaming = true ∧ midStream.streamingContent = js "partial" ∧
    midStream.messages = [] ∧
    (handleError demoEnv midStream ⟨some (js "boom")⟩).messages =
      [{ role := Role.assistant, content := js "❌ boom", time := [1] },
       { role := Role.assistant, content := js "partial", time := [3] }] ∧
    (handleError demoEnv midStream ⟨some (js "boom")⟩).messages ≠
      midStream.messages ++ [{ role := Role.assistant, content := js "❌ boom", time := [1] }] := by
  decide

/-- C2, amended. An error during an active stream with buffer `b` appends the error entry
(`❌ ` followed by the content, or by `Unknown error` when the content is absent or empty)
and then, when `b` is non-empty, `b` itself as one assistant entry; with an empty buffer the
error entry is the only new one. Afterwards the state is idle with an empty buffer. -/
theorem handleError_during_stream (T : Env) (s : State) (d : ContentData)
    (hs : s.isStreaming = true) :
    (handleError T s d).messages =
      s.messages ++
        [{ role := Role.assistant,
           content := js "❌ " ++ orDefault d.content (js "Unknown error"),
           time := T.formatTime s.clock }] ++
        (if s.streamingContent = [] then []
         else [{ role := Role.assistant, content := s.streamingContent,
                 time := T.formatTime (s.clock + 2) }]) ∧
    (handleError T s d).isStreaming = false ∧
    (handleError T s d).streamingContent = [] := by
  by_cases hb : s.streamingContent = []
  · simp [handleError, endStreaming, addMessage, log, showToast, hs, hb]
  · simp [handleError, endStreaming, addMessage, log, showToast, hs, hb]

/-- C2, amended, at a stream holding `partial`. -/
theorem handleError_during_stream_witness :
    midStream.isStreaming = true ∧
    (handleError demoEnv midStream ⟨none⟩).messages =
      midStream.messages ++
        [{ role := Role.assistant,
           content := js "❌ " ++ orDefault none (js "Unknown error"),
           time := demoEnv.formatTime midStream.clock }] ++
        (if midStream.streamingContent = [] then []
         else [{ role := Role.assistant, content := midStream.streamingContent,
                 time := demoEnv.formatTime (midStream.clock + 2) }]) :=
  ⟨by decide, (handleError_during_stream demoEnv midStream ⟨none⟩ (by decide)).1⟩

/-- A run of status-marked messages changes the `status` field and nothing else. -/
theorem handleMessages_status (T : Env) (es : List ContentData) :
    ∀ s : State, (∀ e ∈ es, isStatusContent (contentOf e) = true) →
      handleMessages T s es =
        { s with status := es.foldl (fun _ e => T.parseStatus (contentOf e)) s.status } := by
  induction es with
  | nil => intro s _; rfl
  | cons e es ih =>
    intro s hall
    have he := hall e (List.mem_cons_self _ _)
    have hrest : ∀ x ∈ es, isStatusContent (contentOf x) = true :=
      fun x hx => hall x (List.mem_cons_of_mem _ hx)
    have hfold : handleMessages T s (e :: es) = handleMessages T (handleMessage T s e) es := rfl
    rw [hfold, ih _ hrest, handleMessage_status T s e he]
    rfl

/-- C3. Status-marked messages, in any state and in any number, create no transcript
entry and leave the streaming flag and buffer as they were; after each of them the state
is the starting state with `status` replaced by `parseStatus` of that message. -/
theorem status_messages_replace_status (T : Env) (s : State) (es : List ContentData)
    (h : ∀ e ∈ es, isStatusContent (contentOf e) = true) :
    (handleMessages T s es).messages = s.messages ∧
    (handleMessages T s es).isStreaming = s.isStreaming ∧
    (handleMessages T s es).streamingContent = s.streamingContent ∧
    ∀ (k : Nat) (hk : k < es.length),
      handleMessages T s (es.take (k + 1)) =
        { s with status := T.parseStatus (contentOf (es.get ⟨k, hk⟩)) } := by
  refine ⟨?_, ?_, ?_, ?_⟩
  · rw [handleMessages_status T es s h]
  · rw [handleMessages_status T es s h]
  · rw [handleMessages_status T es s h]
  · intro k hk
    have hsub : ∀ e ∈ es.take (k + 1), isStatusContent (contentOf e) = true :=
      fun e he => h e (List.mem_of_mem_take he)
    rw [handleMessages_status T _ s hsub, List.take_succ, List.foldl_append]
    simp [List.getElem?_eq_getElem hk]

/-- C3, at two status messages received while a stream is open. -/
theorem status_messages_replace_status_witness :
    (handleMessages demoEnv midStream
        [⟨some (js "System Status: ok")⟩, ⟨some (js "🧠 CPU: 3%")⟩]).messages
      = midStream.messages :=
  (status_messages_replace_status demoEnv midStream
    [⟨some (js "System Status: ok")⟩, ⟨some (js "🧠 CPU: 3%")⟩] (by decide)).1

theorem keepLast_append_keepLast {α : Type} (n : Nat) (A B : List α) :
    keepLast n (keepLast n A ++ B) = keepLast n (A ++ B) := by
  unfold keepLast
  by_cases hA : A.length ≤ n
  · have h0 : A.length - n = 0 := by omega
    simp [h0]
  · have hlen : (List.drop (A.length - n) A).length = n := by
      simp only [List.length_drop]; omega
    rw [List.drop_append_eq_append_drop, List.drop_append_eq_append_drop]
    simp only [List.length_append, hlen, List.drop_drop]
    have e1 : n + B.length - n + (A.length - n) = A.length + B.length - n := by omega
    have e2 : n + B.length - n - n = A.length + B.length - n - A.length := by omega
    have e3 : A.length - n + (n + B.length - n) = A.length + B.length - n := by omega
    first
      | rw [e1, e2]
      | rw [e3, e2]

theorem pushLog_eq_keepLast (logs : List LogEntry) (e : LogEntry) (h : logs.length ≤ 100) :
    pushLog logs e = keepLast 100 (logs ++ [e]) := by
  unfold pushLog keepLast
  simp only [List.length_append, List.length_singleton]
  split
  · have h1 : logs.length + 1 - 100 = 1 := by omega
    rw [h1, List.drop_one]
  · have h0 : logs.length + 1 - 100 = 0 := by omega
    rw [h0, List.drop_zero]

theorem foldl_pushLog (es : List LogEntry) :
    ∀ logs : List LogEntry, logs.length ≤ 100 →
      es.foldl pushLog logs = keepLast 100 (logs ++ es) := by
  induction es with
  | nil =>
    intro logs h
    have h0 : logs.length - 100 = 0 := by omega
    simp [keepLast, h0]
  | cons e es ih =>
    intro logs h
    rw [List.foldl_cons, ih _ (pushLog_length_le logs e h), pushLog_eq_keepLast logs e h,
      keepLast_append_keepLast]
    simp

theorem handleNotification_suppressed (T : Env) (s : State) (e : ContentData)
    (hw : isWelcome e = true) (hs : s.hasShownWelcome = true) :
    handleNotification T s e = s := by
  unfold isWelcome contentOf at hw
  simp [handleNotification, hw, hs]

theorem handleNotification_shown (T : Env) (s : State) (e : ContentData)
    (h : isWelcome e = false ∨ s.hasShownWelcome = false) :
    handleNotification T s e =
      log T (showToast { s with hasShownWelcome := s.hasShownWelcome || isWelcome e }
        (contentOf e) Level.info) (contentOf e) Level.info := by
  unfold isWelcome contentOf at *
  rcases h with h | h
  · simp [handleNotification, h]
  · by_cases hw : includes (orDefault e.content []) (js "Connected to PocketClaw") = true
    · simp [handleNotification, h, hw]
    · simp only [Bool.not_eq_true] at hw
      have hs : { s with hasShownWelcome := false } = s := by
        cases s
        simp_all
      simp [handleNotification, h, hw, hs]

/-- Once the welcome notification has been shown, exactly the other ones are surfaced. -/
theorem handleNotifications_seen (T : Env) (es : List ContentData) :
    ∀ s : State, s.hasShownWelcome = true →
      (handleNotifications T s es).toasts
        = s.toasts ++ (es.filter (fun e => !isWelcome e)).map infoToast ∧
      (handleNotifications T s es).logs
        = (stampedLogs T s.clock (es.filter (fun e => !isWelcome e))).foldl pushLog s.logs := by
  induction es with
  | nil => intro s _; simp [handleNotifications, stampedLogs]
  | cons e es ih =>
    intro s hs
    have hfold : handleNotifications T s (e :: es)
        = handleNotifications T (handleNotification T s e) es := rfl
    rw [hfold]
    by_cases hw : isWelcome e = true
    · rw [handleNotification_suppressed T s e hw hs]
      simpa [hw] using ih s hs
    · simp only [Bool.not_eq_true] at hw
      have hstep := handleNotification_shown T s e (Or.inl hw)
      obtain ⟨k1, k2⟩ := ih (handleNotification T s e) (by rw [hstep]; simp [log, showToast, hs])
      rw [k1, k2, hstep]
      simp [hw, log, showToast, stampedLogs, infoToast]

/-- Before the welcome notification has been shown, `shownNotifications` are surfaced. -/
theorem handleNotifications_fresh (T : Env) (es : List ContentData) :
    ∀ s : State, s.hasShownWelcome = false →
      (handleNotifications T s es).toasts
        = s.toasts ++ (shownNotifications es).map infoToast ∧
      (handleNotifications T s es).logs
        = (stampedLogs T s.clock (shownNotifications es)).foldl pushLog s.logs := by
  induction es with
  | nil => intro s _; simp [handleNotifications, stampedLogs, shownNotifications]
  | cons e es ih =>
    intro s hs
    have hfold : handleNotifications T s (e :: es)
        = handleNotifications T (handleNotification T s e) es := rfl
    have hstep := handleNotification_shown T s e (Or.inr hs)
    rw [hfold]
    by_cases hw : isWelcome e = true
    · obtain ⟨k1, k2⟩ := handleNotifications_seen T es (handleNotification T s e)
        (by rw [hstep]; simp [log, showToast, hw])
      rw [k1, k2, hstep]
      simp [hw, log, showToast, stampedLogs, infoToast, shownNotifications]
    · simp only [Bool.not_eq_true] at hw
      obtain ⟨k1, k2⟩ := ih (handleNotification T s e)
        (by rw [hstep]; simp [log, showToast, hw, hs])
      rw [k1, k2, hstep]
      simp [hw, log, showToast, stampedLogs, infoToast, shownNotifications]

theorem shownNotifications_welcome (es : List ContentData) :
    (shownNotifications es).filter isWelcome = (es.filter isWelcome).take 1 := by
  induction es with
  | nil => simp [shownNotifications]
  | cons e es ih =>
    by_cases hw : isWelcome e = true
    · simp [shownNotifications, hw, List.filter_filter]
    · simp only [Bool.not_eq_true] at hw
      simp only [shownNotifications, hw, Bool.not_false, List.takeWhile_cons_of_pos,
        List.dropWhile_cons_of_pos, List.cons_append, Bool.false_eq_true, not_false_eq_true,
        List.filter_cons_of_neg]
      exact ih

theorem shownNotifications_others (es : List ContentData) :
    (shownNotifications es).filter (fun e => !isWelcome e)
      = es.filter (fun e => !isWelcome e) := by
  induction es with
  | nil => simp [shownNotifications]
  | cons e es ih =>
    by_cases hw : isWelcome e = true
    · simp [shownNotifications, hw, List.filter_filter]
    · simp only [Bool.not_eq_true] at hw
      simp only [shownNotifications, hw, Bool.not_false, List.takeWhile_cons_of_pos,
        List.dropWhile_cons_of_pos, List.cons_append, List.filter_cons_of_pos]
      exact congrArg (e :: ·) ih

theorem shownNotifications_sublist (es : List ContentData) :
    List.Sublist (shownNotifications es) es := by
  induction es with
  | nil => simp [shownNotifications]
  | cons e es ih =>
    by_cases hw : isWelcome e = true
    · simp [shownNotifications, hw]
    · simp only [Bool.not_eq_true] at hw
      simp only [shownNotifications, hw, Bool.not_false, List.takeWhile_cons_of_pos,
        List.dropWhile_cons_of_pos, List.cons_append]
      exact List.Sublist.cons₂ e ih

/-- C4. Starting with the welcome flag unset, a run of notifications surfaces (one info toast
and one info log entry each, in order) exactly `shownNotifications`: among the welcome
notifications only the first, and every other notification each time it arrives. -/
theorem welcome_notification_shown_once (T : Env) (s : State) (es : List ContentData)
    (hw : s.hasShownWelcome = false) (hl : s.logs.length ≤ 100) :
    (handleNotifications T s es).toasts
      = s.toasts ++ (shownNotifications es).map infoToast ∧
    (handleNotifications T s es).logs
      = keepLast 100 (s.logs ++ stampedLogs T s.clock (shownNotifications es)) ∧
    (shownNotifications es).filter isWelcome = (es.filter isWelcome).take 1 ∧
    (shownNotifications es).filter (fun e => !isWelcome e)
      = es.filter (fun e => !isWelcome e) ∧
    List.Sublist (shownNotifications es) es := by
  obtain ⟨k1, k2⟩ := handleNotifications_fresh T es s hw
  refine ⟨k1, ?_, shownNotifications_welcome es, shownNotifications_others es,
    shownNotifications_sublist es⟩
  rw [k2, foldl_pushLog _ _ hl]

/-- C4, at a session that receives the welcome notification twice. -/
theorem welcome_notification_shown_once_witness :
    (handleNotifications demoEnv (initial false)
        [⟨some (js "Connected to PocketClaw")⟩, ⟨some (js "job done")⟩,
         ⟨some (js "Connected to PocketClaw")⟩, ⟨some (js "job done")⟩]).toasts
      = [{ message := js "Connected to PocketClaw", type := Level.info },
         { message := js "job done", type := Level.info },
         { message := js "job done", type := Level.info }] :=
  (welcome_notification_shown_once demoEnv (initial false)
    [⟨some (js "Connected to PocketClaw")⟩, ⟨some (js "job done")⟩,
     ⟨some (js "Connected to PocketClaw")⟩, ⟨some (js "job done")⟩]
    (by decide) (by decide)).1

theorem log_logs (T : Env) (s : State) (m : JSString) (v : Level) :
    (log T s m v).logs
      = pushLog s.logs { time := T.formatTime s.clock, message := m, level := v } := rfl

theorem addMessage_logs (T : Env) (s : State) (r : Role) (c : JSString) :
    (addMessage T s r c).logs = s.logs := rfl

theorem showToast_logs (s : State) (m : JSString) (v : Level) :
    (showToast s m v).logs = s.logs := rfl

theorem socketCall_logs (s : State) (c : SocketCall) : (socketCall s c).logs = s.logs := rfl

theorem startStreaming_logs (s : State) : (startStreaming s).logs = s.logs := rfl

theorem register_logs (s : State) (ev : String) (h : Handler) :
    (register s ev h).logs = s.logs := rfl

theorem endStreaming_logs (T : Env) (s : State) : (endStreaming T s).logs = s.logs := by
  unfold endStreaming
  split <;> rfl

theorem onConnected_logs_le (T : Env) (s : State) (h : s.logs.length ≤ 100) :
    (onConnected T s).logs.length ≤ 100 := by
  simp only [onConnected, socketCall_logs, log_logs]
  exact pushLog_length_le _ _ h

theorem setupSocketHandlers_logs_le (T : Env) (s : State) (h : s.logs.length ≤ 100) :
    (setupSocketHandlers T s).logs.length ≤ 100 := by
  simp only [setupSocketHandlers, register_logs]
  split
  · exact onConnected_logs_le T _ h
  · exact h

theorem init_logs_le (T : Env) (s : State) (h : s.logs.length ≤ 100) :
    (init T s).logs.length ≤ 100 := by
  have h1 : (log T s (js "PocketClaw Dashboard initialized") Level.info).logs.length ≤ 100 :=
    pushLog_length_le _ _ h
  have h2 := setupSocketHandlers_logs_le T _ h1
  simpa [init, startStatusPolling, socketCall] using h2

theorem handleMessage_logs_le (T : Env) (s : State) (d : ContentData)
    (h : s.logs.length ≤ 100) : (handleMessage T s d).logs.length ≤ 100 := by
  unfold handleMessage
  simp only
  split
  · exact h
  · rw [log_logs]
    apply pushLog_length_le
    split
    · exact h
    · exact h

theorem handleNotification_logs_le (T : Env) (s : State) (d : ContentData)
    (h : s.logs.length ≤ 100) : (handleNotification T s d).logs.length ≤ 100 := by
  unfold handleNotification
  simp only
  split
  · exact h
  · rw [log_logs, showToast_logs]
    apply pushLog_length_le
    split
    · exact h
    · exact h

theorem handleStatus_logs (T : Env) (s : State) (d : ContentData) :
    (handleStatus T s d).logs = s.logs := by
  unfold handleStatus
  split <;> rfl

theorem handleScreenshot_logs (s : State) (d : ImageData) :
    (handleScreenshot s d).logs = s.logs := by
  unfold handleScreenshot
  split <;> rfl

theorem handleCode_logs (T : Env) (s : State) (d : ContentData) :
    (handleCode T s d).logs = s.logs := by
  unfold handleCode
  simp only
  split <;> rfl

theorem handleError_logs_le (T : Env) (s : State) (d : ContentData)
    (h : s.logs.length ≤ 100) : (handleError T s d).logs.length ≤ 100 := by
  simp only [handleError, endStreaming_logs, showToast_logs, log_logs, addMessage_logs]
  exact pushLog_length_le _ _ h

theorem sendMessage_logs_le (T : Env) (s : State) (h : s.logs.length ≤ 100) :
    (sendMessage T s).logs.length ≤ 100 := by
  unfold sendMessage
  simp only
  split
  · exact h
  · rw [log_logs]
    exact pushLog_length_le _ _ h

theorem saveApiKey_logs_le (T : Env) (s : State) (p : JSString) (h : s.logs.length ≤ 100) :
    (saveApiKey T s p).logs.length ≤ 100 := by
  unfold saveApiKey
  simp only
  split
  · exact h
  · simp only [showToast_logs, log_logs]
    exact pushLog_length_le _ _ h

/-- Every `Op` keeps the log buffer within its capacity. -/
theorem step_logs_le (T : Env) (s : State) (op : Op) (h : s.logs.length ≤ 100) :
    (step T s op).logs.length ≤ 100 := by
  cases op with
  | init => exact init_logs_le T s h
  | connected => exact onConnected_logs_le T s h
  | disconnected => exact pushLog_length_le _ _ h
  | message d => exact handleMessage_logs_le T s d h
  | notification d => exact handleNotification_logs_le T s d h
  | status d => simpa [step, handleStatus_logs] using h
  | screenshot d => simpa [step, handleScreenshot_logs] using h
  | code d => simpa [step, handleCode_logs] using h
  | error d => exact handleError_logs_le T s d h
  | streamStart => exact h
  | streamEnd => simpa [step, endStreaming_logs] using h
  | tick =>
    simp only [step, pollTick]
    split
    · exact h
    · exact h
  | sendMessage => exact sendMessage_logs_le T s h
  | runTool t => exact pushLog_length_le _ _ h
  | toggleAgent => exact pushLog_length_le _ _ h
  | saveSettings => exact pushLog_length_le _ _ h
  | saveApiKey p => exact saveApiKey_logs_le T s p h
  | log m v => exact pushLog_length_le _ _ h
  | setInputText t => exact h
  | setAgentActive b => exact h
  | setSettings v => exact h
  | setApiKey p k => exact h
  | setConnected b => exact h

theorem run_logs_le (T : Env) (ops : List Op) :
    ∀ s : State, s.logs.length ≤ 100 → (run T s ops).logs.length ≤ 100 := by
  induction ops with
  | nil => intro s h; exact h
  | cons op ops ih => intro s h; exact ih (step T s op) (step_logs_le T s op h)

/-- C5. In every state reached from the initial one by inbound events, timer ticks and
user operations, in any number and order, the log buffer holds at most 100 entries. -/
theorem logs_never_exceed_capacity (T : Env) (connected : Bool) (ops : List Op) :
    (run T (initial connected) ops).logs.length ≤ 100 :=
  run_logs_le T ops (initial connected) (Nat.zero_le 100)

theorem pushLog_getLast (logs : List LogEntry) (e : LogEntry) :
    (pushLog logs e).getLast? = some e := by
  unfold pushLog
  simp only [List.length_append, List.length_singleton]
  split
  · cases logs with
    | nil => simp at *
    | cons a l => simp
  · simp

/-- C6. On a buffer of at most 100 entries, `log` leaves the last 100 entries of the buffer
followed by the new entry: the new entry is last, a buffer below capacity is kept whole,
and a full buffer loses its first entry and no other. -/
theorem log_keeps_last_hundred (T : Env) (s : State) (m : JSString) (v : Level)
    (h : s.logs.length ≤ 100) :
    (log T s m v).logs
      = keepLast 100 (s.logs ++ [{ time := T.formatTime s.clock, message := m, level := v }]) ∧
    (log T s m v).logs.getLast?
      = some { time := T.formatTime s.clock, message := m, level := v } ∧
    (s.logs.length < 100 →
      (log T s m v).logs
        = s.logs ++ [{ time := T.formatTime s.clock, message := m, level := v }]) ∧
    (s.logs.length = 100 →
      (log T s m v).logs
        = s.logs.tail ++ [{ time := T.formatTime s.clock, message := m, level := v }]) := by
  refine ⟨pushLog_eq_keepLast _ _ h, pushLog_getLast _ _, ?_, ?_⟩
  · intro hlt
    have hn : ¬ (s.logs.length + 1 > 100) := by omega
    simp [log_logs, pushLog, hn]
  · intro heq
    have hne : s.logs ≠ [] := by
      intro h0
      rw [h0] at heq
      simp at heq
    simp [log_logs, pushLog, heq, List.tail_append_of_ne_nil hne]

/-- C6, at a full buffer: the entry stamped 0 leaves, the new one is appended. -/
theorem log_keeps_last_hundred_witness :
    fullLogs.logs.length = 100 ∧
    (log demoEnv fullLogs (js "new") Level.error).logs
      = fullLogs.logs.tail ++
          [{ time := demoEnv.formatTime fullLogs.clock, message := js "new",
             level := Level.error }] :=
  ⟨by decide,
   (log_keeps_last_hundred demoEnv fullLogs (js "new") Level.error (by decide)).2.2.2
     (by decide)⟩

theorem trim_blank (t : JSString) (h : ∀ c ∈ t, isWhiteSpace c = true) : trim t = [] := by
  have h1 : trimStart t = [] := by
    unfold trimStart
    exact List.dropWhile_eq_nil_iff.mpr h
  rw [trim, h1]
  rfl

/-- C7. With an input that is empty or all whitespace, `sendMessage` returns the state as it
was: no transcript entry, no `socket.chat` call, no log entry, streaming untouched. -/
theorem sendMessage_blank_is_noop (T : Env) (s : State)
    (h : ∀ c ∈ s.inputText, isWhiteSpace c = true) :
    sendMessage T s = s := by
  simp [sendMessage, trim_blank s.inputText h]

/-- C7, at an input of blanks. -/
theorem sendMessage_blank_is_noop_witness :
    sendMessage demoEnv blankInput = blankInput :=
  sendMessage_blank_is_noop demoEnv blankInput (by decide)

theorem immediateEntries_contents (T : Env) (es : List ContentData) :
    ∀ c : Nat, (immediateEntries T c es).map (fun m => (m.role, m.content))
      = es.map (fun e => (Role.assistant, contentOf e)) := by
  induction es with
  | nil => intro c; rfl
  | cons e es ih => intro c; simp [immediateEntries, ih]

theorem handleMessages_idle (T : Env) (es : List ContentData) :
    ∀ s : State, s.isStreaming = false →
      (∀ e ∈ es, isStatusContent (contentOf e) = false) →
      (handleMessages T s es).messages = s.messages ++ immediateEntries T s.clock es ∧
      (handleMessages T s es).isStreaming = false ∧
      (handleMessages T s es).streamingContent = s.streamingContent := by
  induction es with
  | nil => intro s hs _; simp [handleMessages, immediateEntries, hs]
  | cons e es ih =>
    intro s hs hall
    have he : isStatusContent (contentOf e) = false := hall e (List.mem_cons_self _ _)
    have hrest : ∀ x ∈ es, isStatusContent (contentOf x) = false :=
      fun x hx => hall x (List.mem_cons_of_mem _ hx)
    have hstep := handleMessage_idle T s e he hs
    have hfold : handleMessages T s (e :: es) = handleMessages T (handleMessage T s e) es := rfl
    obtain ⟨k1, k2, k3⟩ := ih (handleMessage T s e)
      (by rw [hstep]; simpa [log, addMessage] using hs) hrest
    rw [hfold]
    refine ⟨?_, k2, ?_⟩
    · rw [k1, hstep]; simp [log, addMessage, immediateEntries]
    · rw [k3, hstep]; simp [log, addMessage]

/-- C8. While idle, messages without a status marker are appended one entry each, as
assistant entries with their own content, in arrival order; the state stays idle and the
buffer is not touched, so an empty buffer stays empty. -/
theorem idle_messages_append_one_entry_each (T : Env) (s : State) (es : List ContentData)
    (hs : s.isStreaming = false)
    (h : ∀ e ∈ es, isStatusContent (contentOf e) = false) :
    (handleMessages T s es).messages = s.messages ++ immediateEntries T s.clock es ∧
    (immediateEntries T s.clock es).length = es.length ∧
    (immediateEntries T s.clock es).map (fun m => (m.role, m.content))
      = es.map (fun e => (Role.assistant, contentOf e)) ∧
    (handleMessages T s es).isStreaming = false ∧
    (handleMessages T s es).streamingContent = s.streamingContent := by
  obtain ⟨k1, k2, k3⟩ := handleMessages_idle T es s hs h
  have hc := immediateEntries_contents T es s.clock
  refine ⟨k1, ?_, hc, k2, k3⟩
  have hl := congrArg List.length hc
  simpa using hl

/-- C8, at two messages received while idle. -/
theorem idle_messages_append_one_entry_each_witness :
    (handleMessages demoEnv (initial false) [⟨some (js "one")⟩, ⟨some (js "two")⟩]).messages
      = [{ role := Role.assistant, content := js "one", time := [0] },
         { role := Role.assistant, content := js "two", time := [2] }] :=
  (idle_messages_append_one_entry_each demoEnv (initial false)
    [⟨some (js "one")⟩, ⟨some (js "two")⟩] (by decide) (by decide)).1

/-- C9. `startStreaming` directly followed by `endStreaming` adds no transcript entry: the
result is the starting state, idle and with an empty buffer. -/
theorem empty_stream_adds_nothing (T : Env) (s : State) :
    endStreaming T (startStreaming s) = { s with isStreaming := false, streamingContent := [] } ∧
    (endStreaming T (startStreaming s)).messages = s.messages := by
  simp [endStreaming, startStreaming]

/-- C10 as stated fails: a status-marked message is not mirrored to the log. -/
theorem status_message_is_not_logged :
    isStatusContent (contentOf ⟨some (js "System Status: all good")⟩) = true ∧
    (handleMessage demoEnv (initial false) ⟨some (js "System Status: all good")⟩).logs = [] := by
  decide

/-- C10, amended. A message without a status marker, idle or streaming, is mirrored to the
log by one info entry, placed last, whose text is the content when it has at most 80 code
units and its first 80 code units followed by `...` otherwise; a status-marked message
leaves the log as it was. -/
theorem unmarked_message_is_logged (T : Env) (s : State) (d : ContentData) :
    (handleMessage T s d).logs =
      (if isStatusContent (contentOf d) then s.logs
       else pushLog s.logs
         { time := T.formatTime (if s.isStreaming then s.clock else s.clock + 1),
           message := logPreview (contentOf d), level := Level.info }) ∧
    (isStatusContent (contentOf d) = false →
      (handleMessage T s d).logs.getLast? =
        some { time := T.formatTime (if s.isStreaming then s.clock else s.clock + 1),
               message := logPreview (contentOf d), level := Level.info }) ∧
    logPreview (contentOf d) =
      (if (contentOf d).length ≤ 80 then contentOf d
       else (contentOf d).take 80 ++ js "...") := by
  have hlogs : (handleMessage T s d).logs =
      (if isStatusContent (contentOf d) then s.logs
       else pushLog s.logs
         { time := T.formatTime (if s.isStreaming then s.clock else s.clock + 1),
           message := logPreview (contentOf d), level := Level.info }) := by
    by_cases hm : isStatusContent (contentOf d) = true
    · rw [handleMessage_status T s d hm]; simp [hm]
    · simp only [Bool.not_eq_true] at hm
      by_cases hs : s.isStreaming = true
      · rw [handleMessage_streaming T s d hm hs]; simp [hm, hs, log]
      · simp only [Bool.not_eq_true] at hs
        rw [handleMessage_idle T s d hm hs]; simp [hm, hs, log, addMessage]
  refine ⟨hlogs, ?_, ?_⟩
  · intro hm
    rw [hlogs]
    simp only [hm, Bool.false_eq_true, if_false]
    exact pushLog_getLast _ _
  · unfold logPreview substring0
    by_cases hl : (contentOf d).length ≤ 80
    · have hn : ¬ ((contentOf d).length > 80) := by omega
      simp [hl, hn, List.take_of_length_le hl]
    · have hn : (contentOf d).length > 80 := by omega
      simp [hl, hn]

/-- C10, amended, at a message of 81 code units received while idle. -/
theorem unmarked_message_is_logged_witness :
    (handleMessage demoEnv (initial false) ⟨some (List.replicate 81 97)⟩).logs.getLast? =
      some { time := [1], message := List.replicate 80 97 ++ js "...", level := Level.info } :=
  (unmarked_message_is_logged demoEnv (initial false) ⟨some (List.replicate 81 97)⟩).2.1
    (by decide)

theorem init_streaming (T : Env) (s : State) :
    (init T s).isStreaming = s.isStreaming ∧ (init T s).streamingContent = s.streamingContent := by
  unfold init setupSocketHandlers
  simp only [register, socketOn, clearHandlers, startStatusPolling, socketCall, log, onConnected]
  split <;> exact ⟨rfl, rfl⟩

theorem handleNotification_streaming (T : Env) (s : State) (d : ContentData) :
    (handleNotification T s d).isStreaming = s.isStreaming ∧
    (handleNotification T s d).streamingContent = s.streamingContent := by
  unfold handleNotification
  simp only [log, showToast]
  split
  · exact ⟨rfl, rfl⟩
  · split <;> exact ⟨rfl, rfl⟩

theorem handleStatus_streaming (T : Env) (s : State) (d : ContentData) :
    (handleStatus T s d).isStreaming = s.isStreaming ∧
    (handleStatus T s d).streamingContent = s.streamingContent := by
  unfold handleStatus
  split <;> exact ⟨rfl, rfl⟩

theorem handleScreenshot_streaming (s : State) (d : ImageData) :
    (handleScreenshot s d).isStreaming = s.isStreaming ∧
    (handleScreenshot s d).streamingContent = s.streamingContent := by
  unfold handleScreenshot
  split <;> exact ⟨rfl, rfl⟩

theorem saveApiKey_streaming (T : Env) (s : State) (p : JSString) :
    (saveApiKey T s p).isStreaming = s.isStreaming ∧
    (saveApiKey T s p).streamingContent = s.streamingContent := by
  unfold saveApiKey
  simp only
  split <;> exact ⟨rfl, rfl⟩

theorem endStreaming_idle (T : Env) (s : State) :
    (endStreaming T s).isStreaming = false ∧ (endStreaming T s).streamingContent = [] :=
  ⟨rfl, rfl⟩

theorem handleMessage_buffer_idle (T : Env) (s : State) (d : ContentData)
    (hs : s.isStreaming = false) :
    (handleMessage T s d).isStreaming = false ∧
    (handleMessage T s d).streamingContent = s.streamingContent := by
  by_cases hm : isStatusContent (contentOf d) = true
  · rw [handleMessage_status T s d hm]
    exact ⟨hs, rfl⟩
  · simp only [Bool.not_eq_true] at hm
    rw [handleMessage_idle T s d hm hs]
    exact ⟨hs, rfl⟩

theorem handleMessage_flag (T : Env) (s : State) (d : ContentData) :
    (handleMessage T s d).isStreaming = s.isStreaming := by
  unfold handleMessage
  simp only [log, addMessage]
  split
  · rfl
  · split <;> rfl

theorem handleCode_buffer_idle (T : Env) (s : State) (d : ContentData)
    (hs : s.isStreaming = false) :
    (handleCode T s d).isStreaming = false ∧
    (handleCode T s d).streamingContent = s.streamingContent := by
  simp [handleCode, hs, addMessage]

theorem handleCode_flag (T : Env) (s : State) (d : ContentData) :
    (handleCode T s d).isStreaming = s.isStreaming := by
  unfold handleCode
  simp only [addMessage]
  split <;> rfl

theorem sendMessage_buffer (T : Env) (s : State)
    (h : s.isStreaming = false → s.streamingContent = []) :
    (sendMessage T s).isStreaming = false → (sendMessage T s).streamingContent = [] := by
  unfold sendMessage
  simp only
  split
  · exact h
  · intro _; rfl

/-- Every `Op` keeps the buffer empty in idle states. -/
theorem step_idle_buffer (T : Env) (s : State) (op : Op)
    (h : s.isStreaming = false → s.streamingContent = []) :
    (step T s op).isStreaming = false → (step T s op).streamingContent = [] := by
  cases op with
  | init =>
    intro h1
    have hk := init_streaming T s
    exact hk.2.trans (h (hk.1.symm.trans h1))
  | connected => exact h
  | disconnected => exact h
  | message d =>
    intro h1
    have hf : s.isStreaming = false := (handleMessage_flag T s d).symm.trans h1
    exact (handleMessage_buffer_idle T s d hf).2.trans (h hf)
  | notification d =>
    intro h1
    have hk := handleNotification_streaming T s d
    exact hk.2.trans (h (hk.1.symm.trans h1))
  | status d =>
    intro h1
    have hk := handleStatus_streaming T s d
    exact hk.2.trans (h (hk.1.symm.trans h1))
  | screenshot d =>
    intro h1
    have hk := handleScreenshot_streaming s d
    exact hk.2.trans (h (hk.1.symm.trans h1))
  | code d =>
    intro h1
    have hf : s.isStreaming = false := (handleCode_flag T s d).symm.trans h1
    exact (handleCode_buffer_idle T s d hf).2.trans (h hf)
  | error d => intro _; rfl
  | streamStart => intro _; rfl
  | streamEnd => intro _; rfl
  | tick =>
    simp only [step, pollTick]
    split
    · exact h
    · exact h
  | sendMessage => exact sendMessage_buffer T s h
  | runTool t => exact h
  | toggleAgent => exact h
  | saveSettings => exact h
  | saveApiKey p =>
    intro h1
    have hk := saveApiKey_streaming T s p
    exact hk.2.trans (h (hk.1.symm.trans h1))
  | log m v => exact h
  | setInputText t => exact h
  | setAgentActive b => exact h
  | setSettings v => exact h
  | setApiKey p k => exact h
  | setConnected b => exact h

theorem run_idle_buffer (T : Env) (ops : List Op) :
    ∀ s : State, (s.isStreaming = false → s.streamingContent = []) →
      (run T s ops).isStreaming = false → (run T s ops).streamingContent = [] := by
  induction ops with
  | nil => intro s h; exact h
  | cons op ops ih => intro s h; exact ih (step T s op) (step_idle_buffer T s op h)

/-- C11. "Idle implies empty buffer" holds in the initial state, is preserved by every
operation, hence holds after any run from the initial state; and `handleMessage` and
`handleCode` leave the buffer as it was whenever the state is idle. -/
theorem idle_buffer_invariant (T : Env) (connected : Bool) (s : State) (op : Op)
    (h : s.isStreaming = false → s.streamingContent = []) :
    ((initial connected).isStreaming = false → (initial connected).streamingContent = []) ∧
    ((step T s op).isStreaming = false → (step T s op).streamingContent = []) ∧
    (∀ ops : List Op, (run T (initial connected) ops).isStreaming = false →
      (run T (initial connected) ops).streamingContent = []) ∧
    (∀ d : ContentData, s.isStreaming = false →
      (handleMessage T s d).streamingContent = s.streamingContent ∧
      (handleCode T s d).streamingContent = s.streamingContent) :=
  ⟨fun _ => rfl, step_idle_buffer T s op h,
   fun ops => run_idle_buffer T ops (initial connected) (fun _ => rfl),
   fun d hs => ⟨(handleMessage_buffer_idle T s d hs).2, (handleCode_buffer_idle T s d hs).2⟩⟩

/-- C11, at an error arriving in the middle of a stream. -/
theorem idle_buffer_invariant_witness :
    (midStream.isStreaming = false → midStream.streamingContent = []) ∧
    (step demoEnv midStream (Op.error ⟨none⟩)).streamingContent = [] :=
  ⟨by decide,
   (idle_buffer_invariant demoEnv false midStream (Op.error ⟨none⟩) (by decide)).2.1
     (by decide)⟩

theorem endStreaming_extends_messages (T : Env) (s : State) :
    s.messages <+: (endStreaming T s).messages := by
  unfold endStreaming
  simp only [addMessage]
  split
  · exact List.prefix_append _ _
  · exact List.prefix_refl _

theorem handleMessage_extends_messages (T : Env) (s : State) (d : ContentData) :
    s.messages <+: (handleMessage T s d).messages := by
  unfold handleMessage
  simp only [log, addMessage]
  split
  · exact List.prefix_refl _
  · split
    · exact List.prefix_refl _
    · exact List.prefix_append _ _

theorem handleCode_extends_messages (T : Env) (s : State) (d : ContentData) :
    s.messages <+: (handleCode T s d).messages := by
  unfold handleCode
  simp only [addMessage]
  split
  · exact List.prefix_refl _
  · exact List.prefix_append _ _

theorem handleError_extends_messages (T : Env) (s : State) (d : ContentData) :
    s.messages <+: (handleError T s d).messages := by
  have h1 := endStreaming_extends_messages T
    (showToast
      (log T
        (addMessage T s Role.assistant (js "❌ " ++ orDefault d.content (js "Unknown error")))
        (orDefault d.content (js "Unknown error")) Level.error)
      (orDefault d.content (js "Unknown error")) Level.error)
  exact List.IsPrefix.trans (List.prefix_append _ _) h1

theorem sendMessage_extends_messages (T : Env) (s : State) :
    s.messages <+: (sendMessage T s).messages := by
  unfold sendMessage
  simp only [log, socketCall, startStreaming, addMessage]
  split
  · exact List.prefix_refl _
  · exact List.prefix_append _ _

theorem init_messages (T : Env) (s : State) : (init T s).messages = s.messages := by
  unfold init setupSocketHandlers
  simp only [register, socketOn, clearHandlers, startStatusPolling, socketCall, log, onConnected]
  split <;> rfl

theorem handleNotification_messages (T : Env) (s : State) (d : ContentData) :
    (handleNotification T s d).messages = s.messages := by
  unfold handleNotification
  simp only [log, showToast]
  split
  · rfl
  · split <;> rfl

theorem handleStatus_messages (T : Env) (s : State) (d : ContentData) :
    (handleStatus T s d).messages = s.messages := by
  unfold handleStatus
  split <;> rfl

theorem handleScreenshot_messages (s : State) (d : ImageData) :
    (handleScreenshot s d).messages = s.messages := by
  unfold handleScreenshot
  split <;> rfl

theorem saveApiKey_messages (T : Env) (s : State) (p : JSString) :
    (saveApiKey T s p).messages = s.messages := by
  unfold saveApiKey
  simp only
  split <;> rfl

theorem pollTick_messages (s : State) : (pollTick s).messages = s.messages := by
  unfold pollTick
  split <;> rfl

/-- Every `Op` extends the transcript at its end, or leaves it alone. -/
theorem step_extends_messages (T : Env) (s : State) (op : Op) :
    s.messages <+: (step T s op).messages := by
  cases op with
  | init => exact (init_messages T s) ▸ List.prefix_refl _
  | connected => exact List.prefix_refl _
  | disconnected => exact List.prefix_refl _
  | message d => exact handleMessage_extends_messages T s d
  | notification d => exact (handleNotification_messages T s d) ▸ List.prefix_refl _
  | status d => exact (handleStatus_messages T s d) ▸ List.prefix_refl _
  | screenshot d => exact (handleScreenshot_messages s d) ▸ List.prefix_refl _
  | code d => exact handleCode_extends_messages T s d
  | error d => exact handleError_extends_messages T s d
  | streamStart => exact List.prefix_refl _
  | streamEnd => exact endStreaming_extends_messages T s
  | tick => exact (pollTick_messages s) ▸ List.prefix_refl _
  | sendMessage => exact sendMessage_extends_messages T s
  | runTool t => exact List.prefix_refl _
  | toggleAgent => exact List.prefix_refl _
  | saveSettings => exact List.prefix_refl _
  | saveApiKey p => exact (saveApiKey_messages T s p) ▸ List.prefix_refl _
  | log m v => exact List.prefix_refl _
  | setInputText t => exact List.prefix_refl _
  | setAgentActive b => exact List.prefix_refl _
  | setSettings v => exact List.prefix_refl _
  | setApiKey p k => exact List.prefix_refl _
  | setConnected b => exact List.prefix_refl _

theorem run_extends_messages (T : Env) (ops : List Op) :
    ∀ s : State, s.messages <+: (run T s ops).messages := by
  induction ops with
  | nil => intro s; exact List.prefix_refl _
  | cons op ops ih =>
    intro s
    exact List.IsPrefix.trans (step_extends_messages T s op) (ih (step T s op))

/-- C12. The transcript is append-only: the transcript before any operation, and before
any run of operations, is a prefix of the transcript after it. -/
theorem transcript_append_only (T : Env) (s : State) :
    (∀ op : Op, s.messages <+: (step T s op).messages) ∧
    (∀ ops : List Op, s.messages <+: (run T s ops).messages) :=
  ⟨fun op => step_extends_messages T s op, fun ops => run_extends_messages T ops s⟩

/-- C13. When the input trims to a non-empty text `t`, `sendMessage` appends one user entry
holding `t`, empties the input, enters the streaming state with an empty buffer, calls
`socket.chat(t)` once and logs `You: t` at level info.  The order is that of the body of the
method: executed statement by statement, the body gives `sendMessage`, its only channel call
is the fourth statement, and the state that statement starts from already has the user
entry, the emptied input and the streaming flag, and no channel call made yet; the log entry
comes after the call. -/
theorem sendMessage_sends_trimmed (T : Env) (s : State) (h : trim s.inputText ≠ []) :
    sendMessage T s =
      log T
        (socketCall
          { s with
            messages := s.messages ++
              [{ role := Role.user, content := trim s.inputText, time := T.formatTime s.clock }]
            clock := s.clock + 1
            inputText := []
            isStreaming := true
            streamingContent := [] }
          (SocketCall.chat (trim s.inputText)))
        (js "You: " ++ trim s.inputText) Level.info ∧
    (sendMessage T s).messages =
      s.messages ++
        [{ role := Role.user, content := trim s.inputText, time := T.formatTime s.clock }] ∧
    (sendMessage T s).inputText = [] ∧
    (sendMessage T s).isStreaming = true ∧
    (sendMessage T s).streamingContent = [] ∧
    (sendMessage T s).socket.calls = s.socket.calls ++ [SocketCall.chat (trim s.inputText)] ∧
    (sendMessage T s).logs =
      pushLog s.logs
        { time := T.formatTime (s.clock + 1), message := js "You: " ++ trim s.inputText,
          level := Level.info } ∧
    (sendMessage T s).logs.getLast? =
      some { time := T.formatTime (s.clock + 1), message := js "You: " ++ trim s.inputText,
             level := Level.info } ∧
    (sendMessageBody s).foldl (execStmt T) s = sendMessage T s ∧
    execTrace T s (sendMessageBody s) =
      [(s, Stmt.addMessage Role.user (trim s.inputText)),
       (addMessage T s Role.user (trim s.inputText), Stmt.setInputText []),
       ({ addMessage T s Role.user (trim s.inputText) with inputText := [] },
         Stmt.startStreaming),
       (startStreaming { addMessage T s Role.user (trim s.inputText) with inputText := [] },
         Stmt.socketChat (trim s.inputText)),
       (socketCall
          (startStreaming { addMessage T s Role.user (trim s.inputText) with inputText := [] })
          (SocketCall.chat (trim s.inputText)),
         Stmt.log (js "You: " ++ trim s.inputText) Level.info)] ∧
    (∀ (pre post : List (State × Stmt)) (u : State) (text : JSString),
      execTrace T s (sendMessageBody s) = pre ++ (u, Stmt.socketChat text) :: post →
      text = trim s.inputText ∧
      u.messages =
        s.messages ++
          [{ role := Role.user, content := trim s.inputText,
             time := T.formatTime s.clock }] ∧
      u.inputText = [] ∧
      u.isStreaming = true ∧
      u.streamingContent = [] ∧
      u.socket.calls = s.socket.calls ∧
      u.logs = s.logs) := by
  have hne : (trim s.inputText).isEmpty = false := by
    cases ht : trim s.inputText with
    | nil => exact absurd ht h
    | cons a l => rfl
  have hdef : sendMessage T s =
      log T
        (socketCall
          { s with
            messages := s.messages ++
              [{ role := Role.user, content := trim s.inputText, time := T.formatTime s.clock }]
            clock := s.clock + 1
            inputText := []
            isStreaming := true
            streamingContent := [] }
          (SocketCall.chat (trim s.inputText)))
        (js "You: " ++ trim s.inputText) Level.info := by
    simp [sendMessage, hne, addMessage, startStreaming]
  have hbody : sendMessageBody s =
      [Stmt.addMessage Role.user (trim s.inputText), Stmt.setInputText [],
       Stmt.startStreaming, Stmt.socketChat (trim s.inputText),
       Stmt.log (js "You: " ++ trim s.inputText) Level.info] := by
    simp [sendMessageBody, hne]
  have htrace : execTrace T s (sendMessageBody s) =
      [(s, Stmt.addMessage Role.user (trim s.inputText)),
       (addMessage T s Role.user (trim s.inputText), Stmt.setInputText []),
       ({ addMessage T s Role.user (trim s.inputText) with inputText := [] },
         Stmt.startStreaming),
       (startStreaming { addMessage T s Role.user (trim s.inputText) with inputText := [] },
         Stmt.socketChat (trim s.inputText)),
       (socketCall
          (startStreaming { addMessage T s Role.user (trim s.inputText) with inputText := [] })
          (SocketCall.chat (trim s.inputText)),
         Stmt.log (js "You: " ++ trim s.inputText) Level.info)] := by
    rw [hbody]
    rfl
  refine ⟨hdef, ?_, ?_, ?_, ?_, ?_, ?_, ?_, ?_, htrace, ?_⟩
  · rw [hdef]; rfl
  · rw [hdef]; rfl
  · rw [hdef]; rfl
  · rw [hdef]; rfl
  · rw [hdef]; rfl
  · rw [hdef]; rfl
  · rw [hdef]; exact pushLog_getLast _ _
  · rw [hbody, hdef]
    rfl
  · intro pre post u text hsplit
    rw [htrace] at hsplit
    have hmem : (u, Stmt.socketChat text) ∈
        [(s, Stmt.addMessage Role.user (trim s.inputText)),
         (addMessage T s Role.user (trim s.inputText), Stmt.setInputText []),
         ({ addMessage T s Role.user (trim s.inputText) with inputText := [] },
           Stmt.startStreaming),
         (startStreaming { addMessage T s Role.user (trim s.inputText) with inputText := [] },
           Stmt.socketChat (trim s.inputText)),
         (socketCall
            (startStreaming
              { addMessage T s Role.user (trim s.inputText) with inputText := [] })
            (SocketCall.chat (trim s.inputText)),
           Stmt.log (js "You: " ++ trim s.inputText) Level.info)] := by
      rw [hsplit]
      simp
    simp only [List.mem_cons, Prod.mk.injEq, List.mem_singleton, List.not_mem_nil, or_false,
      reduceCtorEq, and_false, false_or, Stmt.socketChat.injEq] at hmem
    obtain ⟨hu, ht⟩ := hmem
    subst hu
    exact ⟨ht, rfl, rfl, rfl, rfl, rfl, rfl⟩

/-- C13, at the input `hello` with blanks around it. -/
theorem sendMessage_sends_trimmed_witness :
    (sendMessage demoEnv typedInput).messages =
      [{ role := Role.user, content := js "hello", time := [0] }] ∧
    (sendMessage demoEnv typedInput).socket.calls = [SocketCall.chat (js "hello")] ∧
    (sendMessageBody typedInput).foldl (execStmt demoEnv) typedInput
      = sendMessage demoEnv typedInput :=
  ⟨(sendMessage_sends_trimmed demoEnv typedInput (by decide)).2.1,
   (sendMessage_sends_trimmed demoEnv typedInput (by decide)).2.2.2.2.2.1,
   (sendMessage_sends_trimmed demoEnv typedInput (by decide)).2.2.2.2.2.2.2.2.1⟩

theorem getKey_setKey_same (keys : List (JSString × JSString)) (p v : JSString) :
    getKey (setKey keys p v) p = some v := by
  induction keys with
  | nil => simp [setKey, getKey]
  | cons a rest ih =>
    obtain ⟨q, k⟩ := a
    by_cases hq : q = p
    · simp [setKey, getKey, hq]
    · simp [setKey, getKey, hq, ih]

theorem getKey_setKey_other (keys : List (JSString × JSString)) (p q v : JSString)
    (h : q ≠ p) : getKey (setKey keys p v) q = getKey keys q := by
  induction keys with
  | nil =>
    have hpq : ¬ p = q := fun e => h e.symm
    simp [setKey, getKey, hpq]
  | cons a rest ih =>
    obtain ⟨r, k⟩ := a
    by_cases hr : r = p
    · have hrq : ¬ r = q := fun e => h (e.symm.trans hr)
      have hpq : ¬ p = q := fun e => h e.symm
      simp [setKey, getKey, hr, hpq]
    · by_cases hrq : r = q
      · subst hrq
        simp [setKey, getKey, hr]
      · simp [setKey, getKey, hr, hrq, ih]

theorem readKey_writeKey_same (keys : List (JSString × JSString)) (p k v : JSString)
    (h : getKey keys p = some k) : readKey (writeKey keys p v) p = JSValue.str v := by
  simp [readKey, writeKey, h, getKey_setKey_same]

theorem readKey_writeKey_other (keys : List (JSString × JSString)) (p q k v : JSString)
    (h : getKey keys p = some k) (hq : q ≠ p) :
    readKey (writeKey keys p v) q = readKey keys q := by
  simp [readKey, writeKey, h, getKey_setKey_other keys p q v hq]

theorem readKey_str (keys : List (JSString × JSString)) (p k : JSString)
    (h : readKey keys p = JSValue.str k) : getKey keys p = some k := by
  unfold readKey at h
  cases hg : getKey keys p with
  | none =>
    rw [hg] at h
    simp only at h
    split at h <;> cases h
  | some k2 =>
    rw [hg] at h
    simp only [JSValue.str.injEq] at h
    rw [h]

/-- A name inherited from `Object.prototype` reads as a truthy value: on the initial state
`saveApiKey('constructor')` calls the channel with the inherited member and then stores the
empty string under that name. -/
theorem saveApiKey_inherited_name :
    readKey (initial true).apiKeys (js "constructor") = JSValue.inherited (js "constructor") ∧
    (saveApiKey demoEnv (initial true) (js "constructor")).socket.calls =
      [SocketCall.saveApiKey (js "constructor") (JSValue.inherited (js "constructor"))] ∧
    readKey (saveApiKey demoEnv (initial true) (js "constructor")).apiKeys (js "constructor")
      = JSValue.str [] := by
  decide

/-- C14. When `apiKeys[provider]` is `undefined` or the empty string, `saveApiKey` only
raises the error toast: no channel call, and keys, logs and everything else are as before.
When it is a non-empty string `k`, `saveApiKey` calls `socket.saveApiKey(provider, k)` once,
after which `apiKeys[provider]` is the empty string and `apiKeys[q]` is as before for every
other name `q`. -/
theorem saveApiKey_validates_and_clears (T : Env) (s : State) (p : JSString) :
    (readKey s.apiKeys p = JSValue.undefined ∨ readKey s.apiKeys p = JSValue.str [] →
      saveApiKey T s p = showToast s (js "Please enter an API key") Level.error ∧
      (saveApiKey T s p).toasts =
        s.toasts ++ [{ message := js "Please enter an API key", type := Level.error }] ∧
      (saveApiKey T s p).socket.calls = s.socket.calls ∧
      (saveApiKey T s p).apiKeys = s.apiKeys ∧
      (saveApiKey T s p).logs = s.logs) ∧
    (∀ k : JSString, k ≠ [] → readKey s.apiKeys p = JSValue.str k →
      (saveApiKey T s p).socket.calls =
        s.socket.calls ++ [SocketCall.saveApiKey p (JSValue.str k)] ∧
      readKey (saveApiKey T s p).apiKeys p = JSValue.str [] ∧
      (∀ q : JSString, q ≠ p →
        readKey (saveApiKey T s p).apiKeys q = readKey s.apiKeys q)) := by
  constructor
  · intro h
    have hdef : saveApiKey T s p = showToast s (js "Please enter an API key") Level.error := by
      unfold saveApiKey
      rcases h with h | h <;> simp [h, truthy]
    rw [hdef]
    exact ⟨rfl, rfl, rfl, rfl, rfl⟩
  · intro k hk hread
    have hown := readKey_str s.apiKeys p k hread
    have htruthy : truthy (JSValue.str k) = true := by
      cases k with
      | nil => exact absurd rfl hk
      | cons a l => rfl
    have hdef : saveApiKey T s p =
        showToast
          (log T
            { socketCall s (SocketCall.saveApiKey p (JSValue.str k)) with
              apiKeys := writeKey s.apiKeys p [] }
            (js "Saved " ++ p ++ js " API key") Level.success)
          (T.toUpperCase (p.take 1) ++ p.drop 1 ++ js " API key saved!") Level.success := by
      unfold saveApiKey
      simp [hread, htruthy, socketCall]
    rw [hdef]
    refine ⟨rfl, ?_, ?_⟩
    · exact readKey_writeKey_same s.apiKeys p k [] hown
    · intro q hq
      exact readKey_writeKey_other s.apiKeys p q k [] hown hq

/-- C14, at a key typed for `anthropic` and none typed for `openai`. -/
theorem saveApiKey_validates_and_clears_witness :
    (saveApiKey demoEnv keyTyped (js "openai")).socket.calls = keyTyped.socket.calls ∧
    (saveApiKey demoEnv keyTyped (js "anthropic")).socket.calls =
      [SocketCall.saveApiKey (js "anthropic") (JSValue.str (js "sk-1"))] ∧
    readKey (saveApiKey demoEnv keyTyped (js "anthropic")).apiKeys (js "anthropic")
      = JSValue.str [] :=
  ⟨((saveApiKey_validates_and_clears demoEnv keyTyped (js "openai")).1
      (Or.inr (by decide))).2.2.1,
   ((saveApiKey_validates_and_clears demoEnv keyTyped (js "anthropic")).2 (js "sk-1")
      (by decide) (by decide)).1,
   ((saveApiKey_validates_and_clears demoEnv keyTyped (js "anthropic")).2 (js "sk-1")
      (by decide) (by decide)).2.1⟩

/-- C15. `handleCode` never touches the log buffer or the status snapshot, whatever the
content.  While idle it appends one assistant entry holding the content between code fences
and leaves the buffer as it was; while streaming it leaves the transcript as it was and
appends the fenced content, with line breaks around it, to the buffer. -/
theorem handleCode_wraps_in_fence (T : Env) (s : State) (d : ContentData) :
    (handleCode T s d).logs = s.logs ∧
    (handleCode T s d).status = s.status ∧
    (s.isStreaming = false →
      (handleCode T s d).messages =
        s.messages ++
          [{ role := Role.assistant, content := js "```\n" ++ contentOf d ++ js "\n```",
             time := T.formatTime s.clock }] ∧
      (handleCode T s d).streamingContent = s.streamingContent) ∧
    (s.isStreaming = true →
      (handleCode T s d).messages = s.messages ∧
      (handleCode T s d).streamingContent =
        s.streamingContent ++ (js "\n```\n" ++ contentOf d ++ js "\n```\n")) := by
  refine ⟨handleCode_logs T s d, ?_, ?_, ?_⟩
  · unfold handleCode
    simp only [addMessage]
    split <;> rfl
  · intro hs
    simp [handleCode, hs, addMessage, contentOf]
  · intro hs
    simp [handleCode, hs, contentOf]

/-- C15, at a code event carrying a status marker, idle and in the middle of a stream. -/
theorem handleCode_wraps_in_fence_witness :
    (handleCode demoEnv (initial false) ⟨some (js "System Status")⟩).messages =
      [{ role := Role.assistant, content := js "```\nSystem Status\n```", time := [0] }] ∧
    (handleCode demoEnv midStream ⟨some (js "System Status")⟩).streamingContent =
      js "partial\n```\nSystem Status\n```\n" :=
  ⟨((handleCode_wraps_in_fence demoEnv (initial false) ⟨some (js "System Status")⟩).2.2.1
      (by decide)).1,
   ((handleCode_wraps_in_fence demoEnv midStream ⟨some (js "System Status")⟩).2.2.2
      (by decide)).2⟩

/-- C16. After `handleError`, in any state, the stream is over (flag false, buffer empty),
the transcript holds the new entry `❌ ` followed by the error text right after the earlier
entries, and exactly one toast, an error toast with that text, has been raised.  The error
entry is followed by the buffered text when a stream with a non-empty buffer was open. -/
theorem handleError_ends_stream_and_surfaces (T : Env) (s : State) (d : ContentData) :
    (handleError T s d).isStreaming = false ∧
    (handleError T s d).streamingContent = [] ∧
    (handleError T s d).messages =
      s.messages ++
        [{ role := Role.assistant, content := js "❌ " ++ errorText d,
           time := T.formatTime s.clock }] ++
        (if s.isStreaming && !s.streamingContent.isEmpty then
          [{ role := Role.assistant, content := s.streamingContent,
             time := T.formatTime (s.clock + 2) }]
         else []) ∧
    { role := Role.assistant, content := js "❌ " ++ errorText d,
      time := T.formatTime s.clock } ∈ (handleError T s d).messages ∧
    (handleError T s d).toasts = s.toasts ++ [{ message := errorText d, type := Level.error }] := by
  have hm : (handleError T s d).messages =
      s.messages ++
        [{ role := Role.assistant, content := js "❌ " ++ errorText d,
           time := T.formatTime s.clock }] ++
        (if s.isStreaming && !s.streamingContent.isEmpty then
          [{ role := Role.assistant, content := s.streamingContent,
             time := T.formatTime (s.clock + 2) }]
         else []) := by
    by_cases hc : (s.isStreaming && !s.streamingContent.isEmpty) = true
    · simp [handleError, endStreaming, addMessage, log, showToast, hc, errorText]
    · simp only [Bool.not_eq_true] at hc
      simp [handleError, endStreaming, addMessage, log, showToast, hc, errorText]
  refine ⟨rfl, rfl, hm, ?_, ?_⟩
  · rw [hm]
    simp
  · unfold handleError endStreaming
    simp only [addMessage, log, showToast, errorText]
    split <;> rfl

/-- C17. While idle, `handleError` appends exactly one transcript entry, `❌ ` followed by
the error text, logs the error text at level error and raises one error toast with it; the
error text is `Unknown error` when the content is absent or empty, and the content itself
otherwise. -/
theorem handleError_reports_error_text (T : Env) (s : State) (d : ContentData)
    (hs : s.isStreaming = false) :
    (handleError T s d).messages =
      s.messages ++
        [{ role := Role.assistant, content := js "❌ " ++ errorText d,
           time := T.formatTime s.clock }] ∧
    (handleError T s d).logs =
      pushLog s.logs
        { time := T.formatTime (s.clock + 1), message := errorText d, level := Level.error } ∧
    (handleError T s d).logs.getLast? =
      some { time := T.formatTime (s.clock + 1), message := errorText d,
             level := Level.error } ∧
    (handleError T s d).toasts = s.toasts ++ [{ message := errorText d, type := Level.error }] ∧
    (d.content = none ∨ d.content = some [] → errorText d = js "Unknown error") ∧
    (∀ k : JSString, k ≠ [] → d.content = some k → errorText d = k) := by
  have hl : (handleError T s d).logs =
      pushLog s.logs
        { time := T.formatTime (s.clock + 1), message := errorText d,
          level := Level.error } := by
    simp only [handleError, endStreaming_logs, showToast_logs, log_logs, addMessage_logs]
    rfl
  refine ⟨?_, hl, ?_, ?_, ?_, ?_⟩
  · simp [handleError, endStreaming, addMessage, log, showToast, hs, errorText]
  · rw [hl]
    exact pushLog_getLast _ _
  · simp [handleError, endStreaming, addMessage, log, showToast, hs, errorText]
  · intro h
    rcases h with h | h <;> simp [errorText, orDefault, h]
  · intro k hk h
    cases k with
    | nil => exact absurd rfl hk
    | cons a l => simp [errorText, orDefault, h]

/-- C17, at an error event without content received while idle. -/
theorem handleError_reports_error_text_witness :
    (handleError demoEnv (initial false) ⟨none⟩).messages =
      [{ role := Role.assistant, content := js "❌ Unknown error", time := [0] }] ∧
    (handleError demoEnv (initial false) ⟨none⟩).logs =
      [{ time := [1], message := js "Unknown error", level := Level.error }] :=
  ⟨(handleError_reports_error_text demoEnv (initial false) ⟨none⟩ (by decide)).1,
   (handleError_reports_error_text demoEnv (initial false) ⟨none⟩ (by decide)).2.1⟩

/-- C18. Whatever the handler table was, `setupSocketHandlers` leaves exactly the fixed
bindings, one for each of the ten events, so a second run leaves the same table as the
first; and the rest of the state is that of one run of the `connected` handler when the
socket is connected at that time, and is untouched when it is not. -/
theorem setupSocketHandlers_rebinds (T : Env) (s : State) :
    (setupSocketHandlers T s).socket.handlers = fixedBindings ∧
    (setupSocketHandlers T (setupSocketHandlers T s)).socket.handlers
      = (setupSocketHandlers T s).socket.handlers ∧
    fixedBindings.length = 10 ∧
    (fixedBindings.map Prod.fst).Nodup ∧
    (s.socket.isConnected = true →
      setupSocketHandlers T s = withHandlers (onConnected T s) fixedBindings) ∧
    (s.socket.isConnected = false →
      setupSocketHandlers T s = withHandlers s fixedBindings) := by
  have htable : ∀ u : State, (setupSocketHandlers T u).socket.handlers = fixedBindings := by
    intro u
    unfold setupSocketHandlers
    simp only [register, socketOn, clearHandlers, onConnected, socketCall, log]
    split <;> rfl
  refine ⟨htable s, ?_, by decide, by decide, ?_, ?_⟩
  · rw [htable, htable]
  · intro hc
    simp [setupSocketHandlers, register, socketOn, clearHandlers, onConnected, socketCall, log,
      hc, withHandlers, fixedBindings]
  · intro hc
    simp [setupSocketHandlers, register, socketOn, clearHandlers, onConnected, socketCall, log,
      hc, withHandlers, fixedBindings]

/-- C18, at a second setup on a connected socket: same table, one more run of the
`connected` handler. -/
theorem setupSocketHandlers_rebinds_witness :
    alreadySetUp.socket.handlers = fixedBindings ∧
    (setupSocketHandlers demoEnv alreadySetUp).socket.handlers = fixedBindings ∧
    setupSocketHandlers demoEnv alreadySetUp
      = withHandlers (onConnected demoEnv alreadySetUp) fixedBindings :=
  ⟨by decide,
   (setupSocketHandlers_rebinds demoEnv alreadySetUp).1,
   (setupSocketHandlers_rebinds demoEnv alreadySetUp).2.2.2.2.1 (by decide)⟩

/-- C19. When a stream with a non-empty buffer `b` is open, `endStreaming` would append `b`
to the transcript; a second `startStreaming` instead empties the buffer without adding
anything to the transcript, and an `endStreaming` right after it adds nothing either.  The same holds for `sendMessage` on a non-blank input, whose only new
entry, before and after that `endStreaming`, is the user entry holding the typed text. -/
theorem restart_drops_buffer (T : Env) (s : State)
    (hs : s.isStreaming = true) (hb : s.streamingContent ≠ []) :
    (endStreaming T s).messages =
      s.messages ++
        [{ role := Role.assistant, content := s.streamingContent,
           time := T.formatTime s.clock }] ∧
    (startStreaming s).streamingContent = [] ∧
    (startStreaming s).messages = s.messages ∧
    (endStreaming T (startStreaming s)).messages = s.messages ∧
    (∀ m ∈ (endStreaming T (startStreaming s)).messages.drop s.messages.length,
      m.content ≠ s.streamingContent) ∧
    (trim s.inputText ≠ [] →
      (sendMessage T s).streamingContent = [] ∧
      (sendMessage T s).messages =
        s.messages ++
          [{ role := Role.user, content := trim s.inputText, time := T.formatTime s.clock }] ∧
      (endStreaming T (sendMessage T s)).messages =
        s.messages ++
          [{ role := Role.user, content := trim s.inputText,
             time := T.formatTime s.clock }]) := by
  refine ⟨?_, rfl, rfl, ?_, ?_, ?_⟩
  · simp [endStreaming, addMessage, hs, hb]
  · simp [endStreaming, startStreaming]
  · simp [endStreaming, startStreaming]
  · intro ht
    have hne : (trim s.inputText).isEmpty = false := by
      cases hk : trim s.inputText with
      | nil => exact absurd hk ht
      | cons a l => rfl
    refine ⟨?_, ?_, ?_⟩
    · simp [sendMessage, hne, log, socketCall, startStreaming, addMessage]
    · simp [sendMessage, hne, log, socketCall, startStreaming, addMessage]
    · simp [endStreaming, sendMessage, hne, log, socketCall, startStreaming, addMessage]

/-- C19, at a stream holding `partial`: restarted and then ended, the transcript is as it
was before. -/
theorem restart_drops_buffer_witness :
    midStream.streamingContent = js "partial" ∧
    (endStreaming demoEnv (startStreaming midStream)).messages = midStream.messages :=
  ⟨by decide, (restart_drops_buffer demoEnv midStream (by decide) (by decide)).2.2.2.1⟩

/-- C20. `handleStatus` and `handleScreenshot` write their own fields only.  A status event
without content, or with empty content, leaves the whole state as it was, and one with
content `c` replaces `status` by `parseStatus c` and nothing else.  A screenshot event
without image, or with an empty image, leaves the whole state as it was, and one with image
`i` sets `screenshotSrc` to the data URI of `i` and `showScreenshot` to true and nothing
else. -/
theorem status_and_screenshot_write_own_fields (T : Env) (s : State)
    (d : ContentData) (i : ImageData) :
    (d.content = none ∨ d.content = some [] → handleStatus T s d = s) ∧
    (∀ c : JSString, c ≠ [] → d.content = some c →
      handleStatus T s d = { s with status := T.parseStatus c }) ∧
    (i.image = none ∨ i.image = some [] → handleScreenshot s i = s) ∧
    (∀ c : JSString, c ≠ [] → i.image = some c →
      handleScreenshot s i =
        { s with screenshotSrc := js "data:image/png;base64," ++ c, showScreenshot := true }) := by
  refine ⟨?_, ?_, ?_, ?_⟩
  · intro h
    unfold handleStatus
    rcases h with h | h <;> rw [h]
  · intro c hc h
    cases c with
    | nil => exact absurd rfl hc
    | cons a l =>
      unfold handleStatus
      rw [h]
  · intro h
    unfold handleScreenshot
    rcases h with h | h <;> rw [h]
  · intro c hc h
    cases c with
    | nil => exact absurd rfl hc
    | cons a l =>
      unfold handleScreenshot
      rw [h]

/-- C20, at a status event and a screenshot event received in the middle of a stream. -/
theorem status_and_screenshot_write_own_fields_witness :
    handleStatus demoEnv midStream ⟨some (js "CPU 3%")⟩
      = { midStream with status := demoEnv.parseStatus (js "CPU 3%") } ∧
    handleScreenshot midStream ⟨some (js "iVBOR")⟩
      = { midStream with
          screenshotSrc := js "data:image/png;base64,iVBOR", showScreenshot := true } ∧
    handleScreenshot midStream ⟨some []⟩ = midStream :=
  ⟨(status_and_screenshot_write_own_fields demoEnv midStream ⟨some (js "CPU 3%")⟩ ⟨none⟩).2.1
      (js "CPU 3%") (by decide) rfl,
   (status_and_screenshot_write_own_fields demoEnv midStream ⟨none⟩ ⟨some (js "iVBOR")⟩).2.2.2
      (js "iVBOR") (by decide) rfl,
   (status_and_screenshot_write_own_fields demoEnv midStream ⟨none⟩ ⟨some []⟩).2.2.1
      (Or.inr rfl)⟩

end PocketClaw
